import Mathlib

/-!
Shallow embedding of `ssd/main/views/search.py` (SSD status dashboard,
search views): the incident search handler `search`, the report search
handler `rsearch`, and the recent report handler `rsearch_recent`,
together with the data model (`Incident`, `Service_Issue`, `Report`)
and the Django ORM query fragments they issue.

Machine-level conventions of the embedding:
* timestamps and naive datetimes are `Int` (seconds); `datetime.combine`
  becomes `combine`; `pytz` localization of a naive datetime subtracts a
  fixed zone offset;
* the external `pytz` timezone database is modelled by a finite sample
  table `pytz_all_timezones`; `pytz.timezone` raises
  `UnknownTimeZoneError` on names outside the table, modelled as
  `Except.error`;
* a Django `QuerySet` is a `List` of rows; `filter` is `List.filter`,
  `values(...)` is a projection `map`, `distinct()` is `List.dedup`,
  `order_by(-f)` is `List.insertionSort` by descending `f`, and `[:5]`
  is `List.take 5`;
* a bound `SearchForm` carries `cleaned : Option CleanedData`;
  `form.is_valid()` is `cleaned.isSome`, matching that the handlers read
  `form.cleaned_data` only after a successful `is_valid()`;
* a handler returns `Except String <response>`: `Except.error` is an
  exception escaping the handler, `Except.ok` a rendered template.
-/

namespace SSD

/-- Boolean test: the first char list is an initial segment of the second. -/
def leadsWith : List Char → List Char → Bool
  | [], _ => true
  | _ :: _, [] => false
  | a :: as, b :: bs => a == b && leadsWith as bs

/-- Boolean test: the needle occurs contiguously inside the haystack. -/
def hasSub (needle : List Char) : List Char → Bool
  | [] => needle.isEmpty
  | c :: rest => leadsWith needle (c :: rest) || hasSub needle rest

/-- SQL `LIKE percent-text-percent` as issued by the Django `__contains` lookup:
substring containment on strings. -/
def strContains (hay needle : String) : Bool :=
  hasSub needle.data hay.data

/-- `ssd.main.models.Incident`: date, detail text, and a `closed`
timestamp that is NULL (`none`) while the incident is open. -/
structure Incident where
  id : Nat
  date : Int
  detail : String
  closed : Option Int
deriving DecidableEq

/-- `ssd.main.models.Service_Issue`: links an incident to a service;
the incident search query is issued against this table and joins
through the `incident` foreign key. -/
structure Service_Issue where
  incident_id : Nat
  service_id : Nat
deriving DecidableEq

/-- `ssd.main.models.Report`: a user-submitted report row. -/
structure Report where
  id : Nat
  date : Int
  name : String
  email : String
  description : String
  additional : String
  screenshot1 : String
  screenshot2 : String
deriving DecidableEq

/-- The database visible to the handlers. -/
structure Store where
  incidents : List Incident
  service_issues : List Service_Issue
  reports : List Report
deriving DecidableEq

/-- A pytz timezone object: its name and its fixed UTC offset in seconds. -/
structure TZInfo where
  name : String
  offset : Int
deriving DecidableEq

/-- Sample of the pytz timezone database (the real table is larger; only
membership and the per-zone offset matter to the handlers). -/
def pytz_all_timezones : List TZInfo :=
  [⟨"UTC", 0⟩, ⟨"US/Pacific", -28800⟩, ⟨"US/Eastern", -18000⟩,
   ⟨"Europe/Istanbul", 7200⟩, ⟨"Australia/Sydney", 36000⟩]

/-- `pytz.timezone(name)`: look the name up in the timezone database and
raise `UnknownTimeZoneError` when it is absent. -/
def pytz_timezone (name : String) : Except String TZInfo :=
  match pytz_all_timezones.find? (fun t => t.name == name) with
  | some tz => Except.ok tz
  | none => Except.error ("UnknownTimeZoneError: " ++ name)

/-- `tz.localize(naive)`: interpret a naive local datetime in the zone,
yielding the absolute instant (stored incident/report dates are absolute). -/
def localize (tz : TZInfo) (naive : Int) : Int :=
  naive - tz.offset

/-- `datetime.datetime.combine(d, t)`: a date (days) and a time of day
(seconds) make one naive datetime in seconds. -/
def combine (d t : Int) : Int :=
  d * 86400 + t

/-- The cleaned data of a valid `SearchForm` (fields read by the views:
`s_date`, `s_time`, `e_date`, `e_time`, `text`, `status`). -/
structure CleanedData where
  s_date : Int
  s_time : Int
  e_date : Int
  e_time : Int
  text : String
  status : String
deriving DecidableEq

/-- A bound `SearchForm`: `cleaned = some cd` exactly when `is_valid()`
returns true and `cleaned_data` is `cd`. -/
structure SearchForm where
  cleaned : Option CleanedData
deriving DecidableEq

/-- HTTP request method as distinguished by the views (`POST` versus
everything else). -/
inductive Method
  | GET
  | POST
deriving DecidableEq

/-- The parts of the Django request the three views read: the method,
`request.POST` as parsed by `SearchForm`, and the `timezone` cookie
(`none` when the cookie is absent). -/
structure Request where
  method : Method
  form : SearchForm
  timezoneCookie : Option String
deriving DecidableEq

/-- The `set_timezone` computation shared by all three views:
the `timezone` cookie when present, `settings.TIME_ZONE` otherwise. -/
def set_timezone_of (req : Request) (TIME_ZONE : String) : String :=
  match req.timezoneCookie with
  | none => TIME_ZONE
  | some c => c

/-- One row of the incident search result set, as projected by
`values(incident__date, incident_id, incident__closed,
incident__detail)`. -/
structure IncidentRow where
  incident__date : Int
  incident_id : Nat
  incident__closed : Option Int
  incident__detail : String
deriving DecidableEq

/-- One row of the report search result set, as projected by
`values(id, date, name, email, description, additional,
screenshot1, screenshot2)`. -/
structure ReportRow where
  id : Nat
  date : Int
  name : String
  email : String
  description : String
  additional : String
  screenshot1 : String
  screenshot2 : String
deriving DecidableEq

/-- `order_by(-incident__date)`: descending incident date. -/
def byDateDesc (a b : IncidentRow) : Prop :=
  b.incident__date ≤ a.incident__date

instance : DecidableRel byDateDesc :=
  fun a b => inferInstanceAs (Decidable (b.incident__date ≤ a.incident__date))

instance : IsTotal IncidentRow byDateDesc :=
  ⟨fun a b => (le_total b.incident__date a.incident__date)⟩

instance : IsTrans IncidentRow byDateDesc :=
  ⟨fun _ _ _ h1 h2 => le_trans h2 h1⟩

/-- `order_by(-id)`: descending report id. -/
def byIdDesc (a b : ReportRow) : Prop :=
  b.id ≤ a.id

instance : DecidableRel byIdDesc :=
  fun a b => inferInstanceAs (Decidable (b.id ≤ a.id))

instance : IsTotal ReportRow byIdDesc :=
  ⟨fun a b => (le_total b.id a.id)⟩

instance : IsTrans ReportRow byIdDesc :=
  ⟨fun _ _ _ h1 h2 => le_trans h2 h1⟩

/-- The join underlying `Service_Issue.objects.filter(incident__...)`:
each `Service_Issue` row paired with the incident its foreign key
references. -/
def incidentJoin (db : Store) : List (Service_Issue × Incident) :=
  db.service_issues.flatMap
    (fun si => (db.incidents.filter (fun i => i.id == si.incident_id)).map
      (fun i => (si, i)))

/-- The status reassignment of the incident view (the string open becomes
`True`, closed becomes `False`) followed by the empty-string test
dispatch: `none` means no `incident__closed__isnull` filter, `some b`
means `incident__closed__isnull=b` (a leftover non-empty string is
truthy for the lookup). -/
def statusIsnull (status : String) : Option Bool :=
  if status = "open" then some true
  else if status = "closed" then some false
  else if status = "" then none
  else some true

/-- The WHERE clause of the incident search query: the optional
`incident__closed__isnull` condition, `incident__date__range=[start,end]`
(SQL BETWEEN, inclusive on both ends), and `incident__detail__contains`. -/
def incidentFilter (startTs endTs : Int) (text : String) (isnull : Option Bool)
    (p : Service_Issue × Incident) : Bool :=
  (match isnull with
   | none => true
   | some b => p.2.closed.isNone == b)
  && decide (startTs ≤ p.2.date) && decide (p.2.date ≤ endTs)
  && strContains p.2.detail text

/-- Projection of a joined row to the four `values(...)` columns. -/
def incidentProj (p : Service_Issue × Incident) : IncidentRow :=
  ⟨p.2.date, p.1.incident_id, p.2.closed, p.2.detail⟩

/-- The full incident search query of `search`: filter the join, project
the columns, `distinct()`, and `order_by(-incident__date)`. -/
def incidentResults (db : Store) (startTs endTs : Int) (text : String)
    (isnull : Option Bool) : List IncidentRow :=
  List.insertionSort byDateDesc
    ((((incidentJoin db).filter (incidentFilter startTs endTs text isnull)).map
        incidentProj).dedup)

/-- Projection of a `Report` to the eight `values(...)` columns. -/
def reportToRow (r : Report) : ReportRow :=
  ⟨r.id, r.date, r.name, r.email, r.description, r.additional,
   r.screenshot1, r.screenshot2⟩

/-- The WHERE clause of the report search query:
`date__range=[start,end]` and `description__contains=text`. -/
def reportFilter (startTs endTs : Int) (text : String) (r : Report) : Bool :=
  decide (startTs ≤ r.date) && decide (r.date ≤ endTs)
  && strContains r.description text

/-- The report search query of `rsearch`: filter, project, and
`order_by(-id)` (no `distinct()`). -/
def reportResults (db : Store) (startTs endTs : Int) (text : String) :
    List ReportRow :=
  List.insertionSort byIdDesc
    ((db.reports.filter (reportFilter startTs endTs text)).map reportToRow)

/-- The query of `rsearch_recent`:
`Report.objects.values(...).order_by(-id)[:5]`. -/
def recentResults (db : Store) : List ReportRow :=
  (List.insertionSort byIdDesc (db.reports.map reportToRow)).take 5

/-- The form instance handed to the template: blank (`SearchForm()`) on
GET, bound (`SearchForm(request.POST)`) on POST. -/
inductive FormState
  | blank
  | bound (form : SearchForm)
deriving DecidableEq

/-- A rendered page of the `search` view: the template name, the title,
the result set when the results template is rendered, the form passed to
the context, and the timezone given to `jtz.activate` when it is called. -/
structure SearchResponse where
  template : String
  title : String
  results : Option (List IncidentRow)
  form : FormState
  activatedTz : Option String
deriving DecidableEq

/-- A rendered page of the `rsearch` view. -/
structure RSearchResponse where
  template : String
  title : String
  results : Option (List ReportRow)
  form : FormState
  activatedTz : Option String
deriving DecidableEq

/-- The rendered page of the `rsearch_recent` view (it always renders
the results template and always activates a timezone first). -/
structure RecentResponse where
  template : String
  title : String
  results : List ReportRow
  activatedTz : String
deriving DecidableEq

/-- The incident search view `search(request)`.  POST with a valid form:
read the cleaned fields, pick `set_timezone` from the cookie or
`settings.TIME_ZONE`, combine dates and times, look the zone up in pytz
(an unknown name raises out of the view), localize the bounds, run the
incident query with the status dispatch, activate the timezone, and
render `search/search_results.html`.  POST with an invalid form falls
through to `search/search.html` with the bound form; any other method
renders `search/search.html` with a blank form. -/
def search (TIME_ZONE : String) (db : Store) (req : Request) :
    Except String SearchResponse :=
  match req.method with
  | Method.POST =>
    let form := req.form
    match form.cleaned with
    | some cd =>
      let set_timezone := set_timezone_of req TIME_ZONE
      let startNaive := combine cd.s_date cd.s_time
      let endNaive := combine cd.e_date cd.e_time
      match pytz_timezone set_timezone with
      | Except.error e => Except.error e
      | Except.ok tz =>
        let startTs := localize tz startNaive
        let endTs := localize tz endNaive
        let results := incidentResults db startTs endTs cd.text (statusIsnull cd.status)
        Except.ok ⟨"search/search_results.html", "SSD Search Results",
          some results, FormState.bound form, some set_timezone⟩
    | none =>
      Except.ok ⟨"search/search.html", "SSD Incident Search",
        none, FormState.bound form, none⟩
  | Method.GET =>
    Except.ok ⟨"search/search.html", "SSD Incident Search",
      none, FormState.blank, none⟩

/-- The report search view `rsearch(request)`: same flow as `search`
but with the report query, no status dispatch, and the `rsearch`
templates. -/
def rsearch (TIME_ZONE : String) (db : Store) (req : Request) :
    Except String RSearchResponse :=
  match req.method with
  | Method.POST =>
    let form := req.form
    match form.cleaned with
    | some cd =>
      let set_timezone := set_timezone_of req TIME_ZONE
      let startNaive := combine cd.s_date cd.s_time
      let endNaive := combine cd.e_date cd.e_time
      match pytz_timezone set_timezone with
      | Except.error e => Except.error e
      | Except.ok tz =>
        let startTs := localize tz startNaive
        let endTs := localize tz endNaive
        let results := reportResults db startTs endTs cd.text
        Except.ok ⟨"search/rsearch_results.html", "SSD Incident Report Results",
          some results, FormState.bound form, some set_timezone⟩
    | none =>
      Except.ok ⟨"search/rsearch.html", "SSD Incident Report Search",
        none, FormState.bound form, none⟩
  | Method.GET =>
    Except.ok ⟨"search/rsearch.html", "SSD Incident Report Search",
      none, FormState.blank, none⟩

/-- The recent report view `rsearch_recent(request)`: pick the timezone
from the cookie or the default, activate it (`jtz.activate` resolves a
string through pytz, so an unknown name raises out of the view), then
render the five highest-id report rows. -/
def rsearch_recent (TIME_ZONE : String) (db : Store) (req : Request) :
    Except String RecentResponse :=
  let set_timezone := set_timezone_of req TIME_ZONE
  match pytz_timezone set_timezone with
  | Except.error e => Except.error e
  | Except.ok _ =>
    Except.ok ⟨"search/rsearch_results.html", "SSD Incident Report Results",
      recentResults db, set_timezone⟩

/-! Concrete data used by the witness theorems. -/

/-- A closed incident. -/
def inc1 : Incident := ⟨1, 1000, "database outage", some 2000⟩

/-- An open incident. -/
def inc2 : Incident := ⟨2, 3000, "network flap", none⟩

/-- An open incident with no linked service issue. -/
def inc3 : Incident := ⟨3, 5000, "orphan incident", none⟩

/-- Sample reports. -/
def reports0 : List Report :=
  [⟨1, 1500, "n1", "e1", "slow site", "", "", ""⟩,
   ⟨2, 2500, "n2", "e2", "site down", "", "", ""⟩]

/-- A sample store: three incidents, the first two linked to services
(the second twice), plus two reports. -/
def db0 : Store :=
  ⟨[inc1, inc2, inc3], [⟨1, 10⟩, ⟨2, 10⟩, ⟨2, 11⟩], reports0⟩

/-- A store with no rows at all. -/
def dbEmpty : Store := ⟨[], [], []⟩

/-- Cleaned form data: the whole sample range, empty text, empty status. -/
def cd0 : CleanedData := ⟨0, 0, 0, 10000, "", ""⟩

/-- Cleaned form data with status open. -/
def cdOpen : CleanedData := ⟨0, 0, 0, 10000, "", "open"⟩

/-- A valid POST of `cd0` with a UTC timezone cookie. -/
def req0 : Request := ⟨Method.POST, ⟨some cd0⟩, some "UTC"⟩

/-- A valid POST of `cdOpen` with a UTC timezone cookie. -/
def reqOpen : Request := ⟨Method.POST, ⟨some cdOpen⟩, some "UTC"⟩

/-- An invalid POST (form validation failed) with no cookie. -/
def reqInvalid : Request := ⟨Method.POST, ⟨none⟩, none⟩

/-- A GET with no cookie. -/
def reqPlain : Request := ⟨Method.GET, ⟨none⟩, none⟩

/-- A GET whose timezone cookie holds a name unknown to pytz. -/
def reqBadCookie : Request := ⟨Method.GET, ⟨none⟩, some "Mars/Olympus"⟩

/-- A valid POST whose timezone cookie holds a name unknown to pytz. -/
def reqBadCookiePost : Request := ⟨Method.POST, ⟨some cd0⟩, some "Mars/Olympus"⟩

/-- The UTC zone object of the model. -/
def tzUTC : TZInfo := ⟨"UTC", 0⟩

/-- The incident rows the sample search returns. -/
def rows0 : List IncidentRow := incidentResults db0 0 10000 "" none

/-- The response of `search` on `req0` over `db0`. -/
def resp0 : SearchResponse :=
  ⟨"search/search_results.html", "SSD Search Results", some rows0,
   FormState.bound req0.form, some "UTC"⟩

/-- The top row of `rows0` (the open incident, highest date). -/
def row0 : IncidentRow := ⟨3000, 2, none, "network flap"⟩

/-- The response of `rsearch_recent` over `db0` (any well-cookied request). -/
def respRecent0 : RecentResponse :=
  ⟨"search/rsearch_results.html", "SSD Incident Report Results",
   recentResults db0, "UTC"⟩

/-- The top row of the sample report search (highest id). -/
def rrow0 : ReportRow := ⟨2, 2500, "n2", "e2", "site down", "", "", ""⟩

/-- The response of `rsearch` on `req0` over `db0`. -/
def respR0 : RSearchResponse :=
  ⟨"search/rsearch_results.html", "SSD Incident Report Results",
   some (reportResults db0 0 10000 ""), FormState.bound req0.form, some "UTC"⟩

/-- A GET with a US/Pacific timezone cookie. -/
def reqUSP : Request := ⟨Method.GET, ⟨none⟩, some "US/Pacific"⟩

/-- The response of `rsearch_recent` over `db0` for a US/Pacific cookie. -/
def respRecentUSP : RecentResponse :=
  ⟨"search/rsearch_results.html", "SSD Incident Report Results",
   recentResults db0, "US/Pacific"⟩

/-! Helper lemmas about the query fragments. -/

/-- Membership in the incident result set is membership in the filtered,
projected join. -/
theorem mem_incidentResults {db : Store} {startTs endTs : Int} {text : String}
    {isnull : Option Bool} {row : IncidentRow} :
    row ∈ incidentResults db startTs endTs text isnull ↔
      ∃ p, p ∈ incidentJoin db ∧
        incidentFilter startTs endTs text isnull p = true ∧
        incidentProj p = row := by
  unfold incidentResults
  rw [List.mem_insertionSort, List.mem_dedup, List.mem_map]
  constructor
  · rintro ⟨p, hp, rfl⟩
    rw [List.mem_filter] at hp
    exact ⟨p, hp.1, hp.2, rfl⟩
  · rintro ⟨p, hp, hf, rfl⟩
    exact ⟨p, List.mem_filter.2 ⟨hp, hf⟩, rfl⟩

/-- A joined row pairs a stored service issue with the stored incident
its foreign key references. -/
theorem mem_incidentJoin {db : Store} {p : Service_Issue × Incident}
    (hp : p ∈ incidentJoin db) :
    p.1 ∈ db.service_issues ∧ p.2 ∈ db.incidents ∧ p.2.id = p.1.incident_id := by
  unfold incidentJoin at hp
  rw [List.mem_flatMap] at hp
  obtain ⟨si, hsi, hmem⟩ := hp
  rw [List.mem_map] at hmem
  obtain ⟨i, hi, rfl⟩ := hmem
  rw [List.mem_filter] at hi
  exact ⟨hsi, hi.1, by simpa using hi.2⟩

/-- The incident result set is sorted by descending incident date. -/
theorem sorted_incidentResults (db : Store) (startTs endTs : Int)
    (text : String) (isnull : Option Bool) :
    List.Sorted byDateDesc (incidentResults db startTs endTs text isnull) :=
  List.sorted_insertionSort byDateDesc _

/-- The incident result set has no duplicate rows. -/
theorem nodup_incidentResults (db : Store) (startTs endTs : Int)
    (text : String) (isnull : Option Bool) :
    (incidentResults db startTs endTs text isnull).Nodup :=
  (List.perm_insertionSort byDateDesc _).symm.nodup (List.nodup_dedup _)

/-- Membership in the report result set is membership in the filtered,
projected report table. -/
theorem mem_reportResults {db : Store} {startTs endTs : Int} {text : String}
    {row : ReportRow} :
    row ∈ reportResults db startTs endTs text ↔
      ∃ r, r ∈ db.reports ∧ reportFilter startTs endTs text r = true ∧
        reportToRow r = row := by
  unfold reportResults
  rw [List.mem_insertionSort, List.mem_map]
  constructor
  · rintro ⟨r, hr, rfl⟩
    rw [List.mem_filter] at hr
    exact ⟨r, hr.1, hr.2, rfl⟩
  · rintro ⟨r, hr, hf, rfl⟩
    exact ⟨r, List.mem_filter.2 ⟨hr, hf⟩, rfl⟩

/-- On a valid POST whose timezone resolves, `search` renders the
results template with the incident query over the localized bounds. -/
theorem search_ok_valid {TIME_ZONE : String} {db : Store} {req : Request}
    {cd : CleanedData} {tz : TZInfo} {resp : SearchResponse}
    (hm : req.method = Method.POST)
    (hc : req.form.cleaned = some cd)
    (htz : pytz_timezone (set_timezone_of req TIME_ZONE) = Except.ok tz)
    (hrun : search TIME_ZONE db req = Except.ok resp) :
    resp = ⟨"search/search_results.html", "SSD Search Results",
      some (incidentResults db (localize tz (combine cd.s_date cd.s_time))
        (localize tz (combine cd.e_date cd.e_time)) cd.text
        (statusIsnull cd.status)),
      FormState.bound req.form, some (set_timezone_of req TIME_ZONE)⟩ := by
  unfold search at hrun
  rw [hm] at hrun
  simp only [hc, htz, Except.ok.injEq] at hrun
  exact hrun.symm

/-- On a valid POST whose timezone resolves, `rsearch` renders the
results template with the report query over the localized bounds. -/
theorem rsearch_ok_valid {TIME_ZONE : String} {db : Store} {req : Request}
    {cd : CleanedData} {tz : TZInfo} {resp : RSearchResponse}
    (hm : req.method = Method.POST)
    (hc : req.form.cleaned = some cd)
    (htz : pytz_timezone (set_timezone_of req TIME_ZONE) = Except.ok tz)
    (hrun : rsearch TIME_ZONE db req = Except.ok resp) :
    resp = ⟨"search/rsearch_results.html", "SSD Incident Report Results",
      some (reportResults db (localize tz (combine cd.s_date cd.s_time))
        (localize tz (combine cd.e_date cd.e_time)) cd.text),
      FormState.bound req.form, some (set_timezone_of req TIME_ZONE)⟩ := by
  unfold rsearch at hrun
  rw [hm] at hrun
  simp only [hc, htz, Except.ok.injEq] at hrun
  exact hrun.symm

/-- Whenever `rsearch_recent` renders, it renders the recent-report
query with the cookie-or-default timezone activated. -/
theorem rsearch_recent_ok {TIME_ZONE : String} {db : Store} {req : Request}
    {resp : RecentResponse}
    (hrun : rsearch_recent TIME_ZONE db req = Except.ok resp) :
    resp = ⟨"search/rsearch_results.html", "SSD Incident Report Results",
      recentResults db, set_timezone_of req TIME_ZONE⟩ := by
  cases htz : pytz_timezone (set_timezone_of req TIME_ZONE) with
  | error e =>
    simp only [rsearch_recent, htz] at hrun
    exact Except.noConfusion hrun
  | ok tz =>
    simp only [rsearch_recent, htz, Except.ok.injEq] at hrun
    exact hrun.symm

/-- The chosen timezone is the cookie value when present, the default
otherwise. -/
theorem set_timezone_of_eq_getD (req : Request) (TIME_ZONE : String) :
    set_timezone_of req TIME_ZONE = req.timezoneCookie.getD TIME_ZONE := by
  cases h : req.timezoneCookie <;> simp [set_timezone_of, h]

/-- Empty status string selects the no-filter branch. -/
theorem statusIsnull_empty : statusIsnull "" = none := rfl

/-- Status open selects the `incident__closed__isnull=True` branch. -/
theorem statusIsnull_open : statusIsnull "open" = some true := rfl

/-- Status closed selects the `incident__closed__isnull=False` branch. -/
theorem statusIsnull_closed : statusIsnull "closed" = some false := rfl

/-- Claim C1: for every POST to the incident search handler whose form
is valid and whose status field is empty, every row of the returned
result set has an incident date inside the inclusive localized range
and an incident detail containing the submitted free text. -/
theorem claim_C1_search_range_and_text
    (TIME_ZONE : String) (db : Store) (req : Request) (cd : CleanedData)
    (tz : TZInfo) (resp : SearchResponse) (rows : List IncidentRow)
    (hm : req.method = Method.POST)
    (hc : req.form.cleaned = some cd)
    (hstat : cd.status = "")
    (htz : pytz_timezone (set_timezone_of req TIME_ZONE) = Except.ok tz)
    (hrun : search TIME_ZONE db req = Except.ok resp)
    (hrows : resp.results = some rows) :
    ∀ row ∈ rows,
      localize tz (combine cd.s_date cd.s_time) ≤ row.incident__date ∧
      row.incident__date ≤ localize tz (combine cd.e_date cd.e_time) ∧
      strContains row.incident__detail cd.text = true := by
  have h := search_ok_valid hm hc htz hrun
  subst h
  simp only [Option.some.injEq] at hrows
  subst hrows
  intro row hrow
  rw [mem_incidentResults] at hrow
  obtain ⟨p, hpj, hpf, rfl⟩ := hrow
  rw [hstat, statusIsnull_empty] at hpf
  simp only [incidentFilter, Bool.true_and, Bool.and_eq_true,
    decide_eq_true_eq] at hpf
  exact ⟨hpf.1.1, hpf.1.2, hpf.2⟩

/-- Witness for C1 at a concrete valid POST over the sample store. -/
theorem claim_C1_witness :
    localize tzUTC (combine cd0.s_date cd0.s_time) ≤ row0.incident__date ∧
    row0.incident__date ≤ localize tzUTC (combine cd0.e_date cd0.e_time) ∧
    strContains row0.incident__detail cd0.text = true :=
  claim_C1_search_range_and_text "UTC" db0 req0 cd0 tzUTC resp0 rows0
    (by rfl) (by rfl) (by rfl) (by rfl) (by rfl) (by rfl) row0 (by decide)

/-- Claim C2: for every POST to the incident search handler whose form
is valid, a submitted status of open yields only rows with a null
closed timestamp, and a submitted status of closed yields only rows
with a non-null closed timestamp. -/
theorem claim_C2_search_status_filter
    (TIME_ZONE : String) (db : Store) (req : Request) (cd : CleanedData)
    (tz : TZInfo) (resp : SearchResponse) (rows : List IncidentRow)
    (hm : req.method = Method.POST)
    (hc : req.form.cleaned = some cd)
    (htz : pytz_timezone (set_timezone_of req TIME_ZONE) = Except.ok tz)
    (hrun : search TIME_ZONE db req = Except.ok resp)
    (hrows : resp.results = some rows) :
    ∀ row ∈ rows,
      (cd.status = "open" → row.incident__closed = none) ∧
      (cd.status = "closed" → row.incident__closed.isSome = true) := by
  have h := search_ok_valid hm hc htz hrun
  subst h
  simp only [Option.some.injEq] at hrows
  subst hrows
  intro row hrow
  rw [mem_incidentResults] at hrow
  obtain ⟨p, hpj, hpf, rfl⟩ := hrow
  constructor
  · intro hopen
    rw [hopen, statusIsnull_open] at hpf
    simp only [incidentFilter, Bool.and_eq_true, beq_iff_eq] at hpf
    have hn := hpf.1.1.1
    cases hcl : p.2.closed with
    | none => simp [incidentProj, hcl]
    | some v => rw [hcl] at hn; simp at hn
  · intro hclosed
    rw [hclosed, statusIsnull_closed] at hpf
    simp only [incidentFilter, Bool.and_eq_true, beq_iff_eq] at hpf
    have hn := hpf.1.1.1
    cases hcl : p.2.closed with
    | none => rw [hcl] at hn; simp at hn
    | some v => simp [incidentProj, hcl]

/-- Witness for C2 at a concrete valid POST with status open. -/
theorem claim_C2_witness :
    row0.incident__closed = none :=
  (claim_C2_search_status_filter "UTC" db0 reqOpen cdOpen tzUTC
    ⟨"search/search_results.html", "SSD Search Results",
      some (incidentResults db0 0 10000 "" (some true)),
      FormState.bound reqOpen.form, some "UTC"⟩
    (incidentResults db0 0 10000 "" (some true))
    (by rfl) (by rfl) (by rfl) (by rfl) (by rfl) row0 (by decide)).1 (by rfl)

/-- Claim C4: for every POST to the incident search handler whose form
is valid, the returned result set has no duplicate rows and is ordered
by descending incident date. -/
theorem claim_C4_search_distinct_sorted
    (TIME_ZONE : String) (db : Store) (req : Request) (cd : CleanedData)
    (tz : TZInfo) (resp : SearchResponse) (rows : List IncidentRow)
    (hm : req.method = Method.POST)
    (hc : req.form.cleaned = some cd)
    (htz : pytz_timezone (set_timezone_of req TIME_ZONE) = Except.ok tz)
    (hrun : search TIME_ZONE db req = Except.ok resp)
    (hrows : resp.results = some rows) :
    rows.Nodup ∧ List.Sorted byDateDesc rows := by
  have h := search_ok_valid hm hc htz hrun
  subst h
  simp only [Option.some.injEq] at hrows
  subst hrows
  exact ⟨nodup_incidentResults db _ _ cd.text (statusIsnull cd.status),
    sorted_incidentResults db _ _ cd.text (statusIsnull cd.status)⟩

/-- Witness for C4 at a concrete valid POST over the sample store. -/
theorem claim_C4_witness :
    rows0.Nodup ∧ List.Sorted byDateDesc rows0 :=
  claim_C4_search_distinct_sorted "UTC" db0 req0 cd0 tzUTC resp0 rows0
    (by rfl) (by rfl) (by rfl) (by rfl) (by rfl)

/-- Claim C9: for every POST to the incident search handler whose form
is valid, every returned row is backed by at least one stored
`Service_Issue` linking its incident to a service, and an incident no
`Service_Issue` row links to never appears in the results. -/
theorem claim_C9_search_requires_service_link
    (TIME_ZONE : String) (db : Store) (req : Request) (cd : CleanedData)
    (tz : TZInfo) (resp : SearchResponse) (rows : List IncidentRow)
    (hm : req.method = Method.POST)
    (hc : req.form.cleaned = some cd)
    (htz : pytz_timezone (set_timezone_of req TIME_ZONE) = Except.ok tz)
    (hrun : search TIME_ZONE db req = Except.ok resp)
    (hrows : resp.results = some rows) :
    (∀ row ∈ rows, ∃ si, si ∈ db.service_issues ∧
      si.incident_id = row.incident_id) ∧
    (∀ inc ∈ db.incidents,
      (∀ si ∈ db.service_issues, si.incident_id ≠ inc.id) →
      ∀ row ∈ rows, row.incident_id ≠ inc.id) := by
  have h := search_ok_valid hm hc htz hrun
  subst h
  simp only [Option.some.injEq] at hrows
  subst hrows
  constructor
  · intro row hrow
    rw [mem_incidentResults] at hrow
    obtain ⟨p, hpj, hpf, rfl⟩ := hrow
    exact ⟨p.1, (mem_incidentJoin hpj).1, rfl⟩
  · intro inc _ hno row hrow heq
    rw [mem_incidentResults] at hrow
    obtain ⟨p, hpj, hpf, rfl⟩ := hrow
    exact hno p.1 (mem_incidentJoin hpj).1 heq

/-- Witness for C9: the orphan incident `inc3` matches the criteria yet
its id never appears among the returned rows. -/
theorem claim_C9_witness :
    row0.incident_id ≠ inc3.id :=
  (claim_C9_search_requires_service_link "UTC" db0 req0 cd0 tzUTC resp0 rows0
    (by rfl) (by rfl) (by rfl) (by rfl) (by rfl)).2 inc3 (by decide)
    (by decide) row0 (by decide)

/-- Claim C5: for every POST to the report search handler whose form is
valid, every returned row has a date inside the inclusive localized
range and a description containing the submitted text, the rows are
ordered by descending id, and no open/closed status filter is applied
(every stored report meeting the date and text criteria appears). -/
theorem claim_C5_rsearch_range_text_order
    (TIME_ZONE : String) (db : Store) (req : Request) (cd : CleanedData)
    (tz : TZInfo) (resp : RSearchResponse) (rows : List ReportRow)
    (hm : req.method = Method.POST)
    (hc : req.form.cleaned = some cd)
    (htz : pytz_timezone (set_timezone_of req TIME_ZONE) = Except.ok tz)
    (hrun : rsearch TIME_ZONE db req = Except.ok resp)
    (hrows : resp.results = some rows) :
    (∀ row ∈ rows,
      localize tz (combine cd.s_date cd.s_time) ≤ row.date ∧
      row.date ≤ localize tz (combine cd.e_date cd.e_time) ∧
      strContains row.description cd.text = true) ∧
    List.Sorted byIdDesc rows ∧
    (∀ r ∈ db.reports,
      localize tz (combine cd.s_date cd.s_time) ≤ r.date →
      r.date ≤ localize tz (combine cd.e_date cd.e_time) →
      strContains r.description cd.text = true →
      reportToRow r ∈ rows) := by
  have h := rsearch_ok_valid hm hc htz hrun
  subst h
  simp only [Option.some.injEq] at hrows
  subst hrows
  refine ⟨?_, ?_, ?_⟩
  · intro row hrow
    rw [mem_reportResults] at hrow
    obtain ⟨r, hr, hf, rfl⟩ := hrow
    simp only [reportFilter, Bool.and_eq_true, decide_eq_true_eq] at hf
    exact ⟨hf.1.1, hf.1.2, hf.2⟩
  · exact List.sorted_insertionSort byIdDesc _
  · intro r hr h1 h2 h3
    rw [mem_reportResults]
    exact ⟨r, hr, by simp [reportFilter, h1, h2, h3], rfl⟩

/-- Witness for C5 at a concrete valid POST over the sample store. -/
theorem claim_C5_witness :
    localize tzUTC (combine cd0.s_date cd0.s_time) ≤ rrow0.date ∧
    rrow0.date ≤ localize tzUTC (combine cd0.e_date cd0.e_time) ∧
    strContains rrow0.description cd0.text = true :=
  (claim_C5_rsearch_range_text_order "UTC" db0 req0 cd0 tzUTC respR0
    (reportResults db0 0 10000 "")
    (by rfl) (by rfl) (by rfl) (by rfl) (by rfl)).1 rrow0 (by decide)

/-- Claim C6: a POST with an invalid form makes both search handlers
re-render their input form template with the bound form, touch no
database state, and return normally (no exception). -/
theorem claim_C6_invalid_form_rerenders
    (TIME_ZONE : String) (db db2 : Store) (req : Request)
    (hm : req.method = Method.POST)
    (hinv : req.form.cleaned = none) :
    search TIME_ZONE db req =
      Except.ok ⟨"search/search.html", "SSD Incident Search", none,
        FormState.bound req.form, none⟩ ∧
    rsearch TIME_ZONE db req =
      Except.ok ⟨"search/rsearch.html", "SSD Incident Report Search", none,
        FormState.bound req.form, none⟩ ∧
    search TIME_ZONE db req = search TIME_ZONE db2 req ∧
    rsearch TIME_ZONE db req = rsearch TIME_ZONE db2 req := by
  have hs : ∀ d : Store, search TIME_ZONE d req =
      Except.ok ⟨"search/search.html", "SSD Incident Search", none,
        FormState.bound req.form, none⟩ := by
    intro d
    simp only [search, hm, hinv]
  have hr : ∀ d : Store, rsearch TIME_ZONE d req =
      Except.ok ⟨"search/rsearch.html", "SSD Incident Report Search", none,
        FormState.bound req.form, none⟩ := by
    intro d
    simp only [rsearch, hm, hinv]
  exact ⟨hs db, hr db, (hs db).trans (hs db2).symm, (hr db).trans (hr db2).symm⟩

/-- Witness for C6 at a concrete invalid POST. -/
theorem claim_C6_witness :
    search "UTC" db0 reqInvalid =
      Except.ok ⟨"search/search.html", "SSD Incident Search", none,
        FormState.bound reqInvalid.form, none⟩ :=
  (claim_C6_invalid_form_rerenders "UTC" db0 dbEmpty reqInvalid
    (by rfl) (by rfl)).1

/-- Claim C7: whenever any of the three handlers localizes and activates
a timezone, that timezone is the value of the timezone cookie when it is
present and `settings.TIME_ZONE` when it is absent. -/
theorem claim_C7_timezone_cookie_or_default
    (TIME_ZONE : String) (db : Store) (req : Request) :
    (∀ resp : SearchResponse, search TIME_ZONE db req = Except.ok resp →
      resp.results.isSome = true →
      resp.activatedTz = some (req.timezoneCookie.getD TIME_ZONE)) ∧
    (∀ resp : RSearchResponse, rsearch TIME_ZONE db req = Except.ok resp →
      resp.results.isSome = true →
      resp.activatedTz = some (req.timezoneCookie.getD TIME_ZONE)) ∧
    (∀ resp : RecentResponse, rsearch_recent TIME_ZONE db req = Except.ok resp →
      resp.activatedTz = req.timezoneCookie.getD TIME_ZONE) := by
  refine ⟨?_, ?_, ?_⟩
  · intro resp hrun hres
    cases hm : req.method with
    | GET =>
      simp only [search, hm, Except.ok.injEq] at hrun
      subst hrun
      simp at hres
    | POST =>
      cases hc : req.form.cleaned with
      | none =>
        simp only [search, hm, hc, Except.ok.injEq] at hrun
        subst hrun
        simp at hres
      | some cd =>
        cases htz : pytz_timezone (set_timezone_of req TIME_ZONE) with
        | error e =>
          simp only [search, hm, hc, htz] at hrun
          exact Except.noConfusion hrun
        | ok tz =>
          have h := search_ok_valid hm hc htz hrun
          subst h
          simp [set_timezone_of_eq_getD]
  · intro resp hrun hres
    cases hm : req.method with
    | GET =>
      simp only [rsearch, hm, Except.ok.injEq] at hrun
      subst hrun
      simp at hres
    | POST =>
      cases hc : req.form.cleaned with
      | none =>
        simp only [rsearch, hm, hc, Except.ok.injEq] at hrun
        subst hrun
        simp at hres
      | some cd =>
        cases htz : pytz_timezone (set_timezone_of req TIME_ZONE) with
        | error e =>
          simp only [rsearch, hm, hc, htz] at hrun
          exact Except.noConfusion hrun
        | ok tz =>
          have h := rsearch_ok_valid hm hc htz hrun
          subst h
          simp [set_timezone_of_eq_getD]
  · intro resp hrun
    have h := rsearch_recent_ok hrun
    subst h
    simp [set_timezone_of_eq_getD]

/-- Witness for C7 on the recent report handler with no cookie. -/
theorem claim_C7_witness :
    respRecent0.activatedTz = reqPlain.timezoneCookie.getD "UTC" :=
  (claim_C7_timezone_cookie_or_default "UTC" db0 reqPlain).2.2
    respRecent0 (by rfl)

/-- Claim C8, counterexample to the literal statement: over the same
store, a request with no cookie gets a result set while a request whose
timezone cookie is unknown to pytz gets an exception instead — the two
requests do not produce identical result sets. -/
theorem claim_C8_counterexample :
    (rsearch_recent "UTC" db0 reqPlain).toOption.map RecentResponse.results ≠
    (rsearch_recent "UTC" db0 reqBadCookie).toOption.map
      RecentResponse.results := by
  decide

/-- Claim C8 (amended): any two requests to the recent report handler
that both render successfully over the same store receive identical
result sets, independent of method, form fields, or cookies. -/
theorem claim_C8_recent_results_request_independent
    (TIME_ZONE : String) (db : Store) (req1 req2 : Request)
    (resp1 resp2 : RecentResponse)
    (h1 : rsearch_recent TIME_ZONE db req1 = Except.ok resp1)
    (h2 : rsearch_recent TIME_ZONE db req2 = Except.ok resp2) :
    resp1.results = resp2.results := by
  rw [rsearch_recent_ok h1, rsearch_recent_ok h2]

/-- Witness for the amended C8: a cookieless GET and a US/Pacific POST
receive the same rows. -/
theorem claim_C8_witness :
    respRecent0.results = respRecentUSP.results :=
  claim_C8_recent_results_request_independent "UTC" db0 reqPlain reqUSP
    respRecent0 respRecentUSP (by rfl) (by rfl)

/-- Claim C3, counterexample to the literal statement: over a store with
no reports the recent report handler renders zero rows, not five. -/
theorem claim_C3_counterexample :
    (rsearch_recent "UTC" dbEmpty reqPlain).toOption.map
      (fun r => r.results.length) = some 0 ∧
    (rsearch_recent "UTC" dbEmpty reqPlain).toOption.map
      (fun r => r.results.length) ≠ some 5 :=
  ⟨by decide, by decide⟩

/-- Claim C3 (amended): whenever the recent report handler renders, it
returns the `min 5 n` highest-id rows of the `n` stored reports, in
descending id order, for every request alike: the row count is
`min 5 n`, the rows are sorted by descending id, every row comes from a
stored report, and any stored report left out has an id no larger than
every returned row. -/
theorem claim_C3_recent_take_five
    (TIME_ZONE : String) (db : Store) (req : Request) (resp : RecentResponse)
    (hrun : rsearch_recent TIME_ZONE db req = Except.ok resp) :
    resp.results.length = min 5 db.reports.length ∧
    List.Sorted byIdDesc resp.results ∧
    (∀ row ∈ resp.results, ∃ rep, rep ∈ db.reports ∧ reportToRow rep = row) ∧
    (∀ rep ∈ db.reports, reportToRow rep ∉ resp.results →
      ∀ row ∈ resp.results, rep.id ≤ row.id) := by
  have h := rsearch_recent_ok hrun
  subst h
  have hs : List.Sorted byIdDesc
      (List.insertionSort byIdDesc (db.reports.map reportToRow)) :=
    List.sorted_insertionSort byIdDesc _
  refine ⟨?_, ?_, ?_, ?_⟩
  · simp [recentResults, List.length_take, List.length_insertionSort,
      List.length_map]
  · exact List.Pairwise.sublist (List.take_sublist 5 _) hs
  · intro row hrow
    have hmem : row ∈ List.insertionSort byIdDesc (db.reports.map reportToRow) :=
      List.mem_of_mem_take hrow
    rw [List.mem_insertionSort, List.mem_map] at hmem
    obtain ⟨rep, hrep, rfl⟩ := hmem
    exact ⟨rep, hrep, rfl⟩
  · intro rep hrep hnot row hrow
    have hmem : reportToRow rep ∈
        List.insertionSort byIdDesc (db.reports.map reportToRow) := by
      rw [List.mem_insertionSort, List.mem_map]
      exact ⟨rep, hrep, rfl⟩
    have hsplit := List.take_append_drop 5
      (List.insertionSort byIdDesc (db.reports.map reportToRow))
    have hcross : ∀ a ∈ (List.insertionSort byIdDesc
        (db.reports.map reportToRow)).take 5,
        ∀ b ∈ (List.insertionSort byIdDesc
        (db.reports.map reportToRow)).drop 5, byIdDesc a b := by
      have hsp := hs
      rw [← hsplit] at hsp
      exact (List.pairwise_append.mp hsp).2.2
    have hdrop : reportToRow rep ∈ (List.insertionSort byIdDesc
        (db.reports.map reportToRow)).drop 5 := by
      rcases List.mem_append.mp (by rw [hsplit]; exact hmem) with h | h
      · exact absurd h hnot
      · exact h
    exact hcross row hrow (reportToRow rep) hdrop

/-- Witness for the amended C3 over the sample store. -/
theorem claim_C3_witness :
    respRecent0.results.length = min 5 db0.reports.length :=
  (claim_C3_recent_take_five "UTC" db0 reqPlain respRecent0 (by rfl)).1

/-- Claim C10: the timezone cookie is never validated — with a cookie
naming no pytz timezone, a valid POST to either search handler ends in
an uncaught UnknownTimeZoneError instead of a rendered page. -/
theorem claim_C10_unvalidated_timezone_cookie :
    pytz_all_timezones.all (fun t => t.name != "Mars/Olympus") = true ∧
    search "UTC" db0 reqBadCookiePost =
      Except.error ("UnknownTimeZoneError: " ++ "Mars/Olympus") ∧
    rsearch "UTC" db0 reqBadCookiePost =
      Except.error ("UnknownTimeZoneError: " ++ "Mars/Olympus") :=
  ⟨by decide, by rfl, by rfl⟩

end SSD
